import Mathlib

/-
  Verification of the portal-scene repository (src/scene.ts and
  src/shaders/fireflies/fragment.glsl) against its specification.

  Shallow embedding:
  * the firefly fragment shader is modelled over the reals (GLSL floats
    become real numbers, GLSL `distance`/`cos` become `Real.sqrt`-based
    Euclidean distance and `Real.cos`);
  * the per-frame `animate` loop of scene.ts becomes a pure state
    transformer on an explicit `SceneState`, with a list of `DrawCall`
    records snapshotting the uniform values visible to each draw;
  * scene-assembly lookups and GUI-state loading become `Except`-valued
    functions so that a thrown exception is an explicit error value;
  * the random firefly generation is parameterised by the stream of
    `Math.random()` results, in the exact order the source consumes them.
-/

namespace Portal

/-! ## Firefly fragment shader (src/shaders/fireflies/fragment.glsl)

GLSL source, line by line:
  float distanceToCenter = distance(gl_PointCoord, vec2(0.5));
  float strength = (0.05 / distanceToCenter) - 0.05 * 2.0;
  gl_FragColor = vec4(0.7, 0.7, 0.0, strength * (cos(uTime) + 1.7));
-/

/-- `distance(gl_PointCoord, vec2(0.5))`: Euclidean distance from the
sprite-local coordinate `p` to the sprite center `(0.5, 0.5)`. -/
noncomputable def distanceToCenter (p : ℝ × ℝ) : ℝ :=
  Real.sqrt ((p.1 - 0.5) ^ 2 + (p.2 - 0.5) ^ 2)

/-- `strength = (0.05 / distanceToCenter) - 0.05 * 2.0` (fragment.glsl line 5),
with GLSL division embedded as (total) real division. -/
noncomputable def strength (p : ℝ × ℝ) : ℝ :=
  0.05 / distanceToCenter p - 0.05 * 2.0

/-- The flicker factor `cos(uTime) + 1.7` from fragment.glsl line 7. -/
noncomputable def flicker (t : ℝ) : ℝ :=
  Real.cos t + 1.7

/-- `gl_FragColor = vec4(0.7, 0.7, 0.0, strength * (cos(uTime) + 1.7))`
(fragment.glsl line 7), as an RGBA quadruple. -/
noncomputable def gl_FragColor (p : ℝ × ℝ) (t : ℝ) : ℝ × ℝ × ℝ × ℝ :=
  (0.7, 0.7, 0.0, strength p * (Real.cos t + 1.7))

open scoped Classical in
/-- The `0.05 / distanceToCenter` division of fragment.glsl line 5 with the
division-by-zero case made explicit: `none` exactly when the denominator is
zero, mirroring that the source applies no epsilon clamp to it. -/
noncomputable def strengthChecked (p : ℝ × ℝ) : Option ℝ :=
  if distanceToCenter p = 0 then none
  else some (0.05 / distanceToCenter p - 0.05 * 2.0)

/-- The sprite-local origin is at positive distance from the sprite center. -/
lemma distanceToCenter_origin_pos : 0 < distanceToCenter (0, 0) := by
  unfold distanceToCenter
  apply Real.sqrt_pos.mpr
  norm_num

/-- The exact sprite center is at distance zero from itself. -/
lemma distanceToCenter_center_eq_zero : distanceToCenter (0.5, 0.5) = 0 := by
  unfold distanceToCenter
  norm_num

/-- C2: for every elapsed time `t`, the firefly flicker factor
`cos(t) + 1.7` lies within `[0.7, 2.7]` and is strictly positive, so the
firefly sprite intensity is never zeroed out or sign-inverted by the
flicker term. -/
theorem flicker_range (t : ℝ) :
    0.7 ≤ flicker t ∧ flicker t ≤ 2.7 ∧ 0 < flicker t := by
  have h1 := Real.neg_one_le_cos t
  have h2 := Real.cos_le_one t
  unfold flicker
  refine ⟨by linarith, by linarith, by linarith⟩

/-- C3: for every sprite-local coordinate `p` and elapsed time `t` with
`distanceToCenter p ≠ 0`, the firefly fragment shader outputs exactly the
color `(R, G, B) = (0.7, 0.7, 0.0)` with alpha
`((0.05 / distanceToCenter p) - 0.1) * (cos t + 1.7)`. -/
theorem gl_FragColor_eq (p : ℝ × ℝ) (t : ℝ) (_h : distanceToCenter p ≠ 0) :
    gl_FragColor p t =
      (0.7, 0.7, 0.0, (0.05 / distanceToCenter p - 0.1) * (Real.cos t + 1.7)) := by
  unfold gl_FragColor strength
  norm_num

/-- Witness for C3 at the concrete input `p = (0, 0)`, `t = 0`. -/
theorem gl_FragColor_eq_witness :
    distanceToCenter ((0 : ℝ), (0 : ℝ)) ≠ 0 ∧
      gl_FragColor (0, 0) 0 =
        (0.7, 0.7, 0.0,
          (0.05 / distanceToCenter ((0 : ℝ), (0 : ℝ)) - 0.1) * (Real.cos 0 + 1.7)) :=
  ⟨distanceToCenter_origin_pos.ne',
    gl_FragColor_eq (0, 0) 0 distanceToCenter_origin_pos.ne'⟩

/-- C4: the firefly intensity computation divides `0.05` by
`distanceToCenter` with no epsilon clamp: whenever the distance is nonzero
the checked division succeeds with the raw value of fragment.glsl line 5,
and at the exact sprite center the division-by-zero branch is reached. -/
theorem strengthChecked_spec :
    (∀ p : ℝ × ℝ, distanceToCenter p ≠ 0 →
        strengthChecked p = some (0.05 / distanceToCenter p - 0.05 * 2.0)) ∧
      strengthChecked (0.5, 0.5) = none := by
  constructor
  · intro p hp
    unfold strengthChecked
    rw [if_neg hp]
  · unfold strengthChecked
    rw [if_pos distanceToCenter_center_eq_zero]

/-- Witness for C4 at the concrete input `p = (0, 0)`. -/
theorem strengthChecked_spec_witness :
    distanceToCenter ((0 : ℝ), (0 : ℝ)) ≠ 0 ∧
      strengthChecked (0, 0) =
        some (0.05 / distanceToCenter ((0 : ℝ), (0 : ℝ)) - 0.05 * 2.0) :=
  ⟨distanceToCenter_origin_pos.ne',
    strengthChecked_spec.1 (0, 0) distanceToCenter_origin_pos.ne'⟩

/-! ## Frame loop (src/scene.ts, `animate`, lines 256-279)

The tick is embedded as a pure state transformer.  Numeric values are
rationals (JavaScript numbers are finite, hence rational).  Each call to
`renderer.render` appends a `DrawCall` record snapshotting the uniform and
camera values the draw can see, so ordering properties become properties
of the recorded snapshot. -/

/-- Snapshot of the values visible to one `renderer.render(scene, camera)`
call. -/
structure DrawCall where
  firefliesTime : ℚ
  portalTime : ℚ
  cameraAspect : ℚ
  surfaceW : ℕ
  surfaceH : ℕ
  deriving Repr, DecidableEq

/-- The mutable module-level state of scene.ts that the frame loop and the
event handlers read and write. -/
structure SceneState where
  firefliesPositions : List (ℚ × ℚ × ℚ)
  firefliesScales : List ℚ
  firefliesUTime : ℚ
  portalUTime : ℚ
  firefliesUSize : ℚ
  firefliesUPixelRatio : ℚ
  rendererW : ℕ
  rendererH : ℕ
  cameraAspect : ℚ
  projectionRecomputes : ℕ
  controlsUpdates : ℕ
  drawCalls : List DrawCall
  deriving Repr, DecidableEq

/-- Modelled from the spec: `resizeRendererToDisplaySize` lives in
`src/helpers/responsiveness.ts`, which is not among the sources; per the
spec ("If the output surface's pixel dimensions changed since last tick,
resize the rendering surface"), it compares the renderer's current pixel
size with the displayed size `(W, H)`, resizes the rendering surface when
they differ, and reports whether a resize happened. -/
def resizeRendererToDisplaySize (s : SceneState) (W H : ℕ) :
    Bool × SceneState :=
  if s.rendererW ≠ W ∨ s.rendererH ≠ H then
    (true, { s with rendererW := W, rendererH := H })
  else (false, s)

/-- scene.ts lines 261-265: on a resize the camera aspect becomes
`clientWidth / clientHeight` and the projection matrix is recomputed. -/
def handleResize (s : SceneState) (W H : ℕ) : SceneState :=
  let r := resizeRendererToDisplaySize s W H
  if r.1 then
    { r.2 with
      cameraAspect := (W : ℚ) / (H : ℚ),
      projectionRecomputes := r.2.projectionRecomputes + 1 }
  else r.2

/-- scene.ts line 268: `cameraControls.update()` advances the damping. -/
def updateControls (s : SceneState) : SceneState :=
  { s with controlsUpdates := s.controlsUpdates + 1 }

/-- scene.ts line 272: `firefliesMaterial.uniforms.uTime.value = elapsedTime`. -/
def writeFirefliesTime (s : SceneState) (t : ℚ) : SceneState :=
  { s with firefliesUTime := t }

/-- scene.ts line 275: `portalMaterial.uniforms.uTime.value = elapsedTime`. -/
def writePortalTime (s : SceneState) (t : ℚ) : SceneState :=
  { s with portalUTime := t }

/-- scene.ts line 278: `renderer.render(scene, camera)` draws once, seeing
the current uniform and camera values. -/
def render (s : SceneState) : SceneState :=
  { s with
    drawCalls := s.drawCalls ++
      [⟨s.firefliesUTime, s.portalUTime, s.cameraAspect, s.rendererW, s.rendererH⟩] }

/-- One tick of `animate` (scene.ts lines 256-279): the elapsed time is
read once into `elapsedTime`, then resize handling, controls update, the
two uniform writes and the draw run in source order.  `W` and `H` are the
displayed pixel dimensions of the output surface at this tick. -/
def animate (s : SceneState) (elapsedTime : ℚ) (W H : ℕ) : SceneState :=
  render (writePortalTime (writeFirefliesTime (updateControls (handleResize s W H)) elapsedTime) elapsedTime)

/-- C1: every tick runs read-clock, resize handling, controls damping, the
two uTime uniform writes, then exactly one draw, in that fixed order: the
single draw appended by the tick snapshots both uTime uniforms already
equal to the elapsed time read at the top of the same tick, and the
controls damping was advanced before the draw — no off-by-one-frame lag. -/
theorem animate_tick_order (s : SceneState) (t : ℚ) (W H : ℕ) :
    ∃ d : DrawCall,
      (animate s t W H).drawCalls = s.drawCalls ++ [d] ∧
        d.firefliesTime = t ∧ d.portalTime = t ∧
        (animate s t W H).firefliesUTime = t ∧
        (animate s t W H).portalUTime = t ∧
        (animate s t W H).controlsUpdates = s.controlsUpdates + 1 := by
  unfold animate render writePortalTime writeFirefliesTime updateControls
    handleResize resizeRendererToDisplaySize
  split <;> simp

/-- C6: a frame tick never touches the firefly buffer attributes: the
stored position and scale arrays (and the non-time uniforms `uSize` and
`uPixelRatio`) after `animate` are exactly those before it, for every
prior state, elapsed time, and surface size. -/
theorem animate_preserves_fireflies (s : SceneState) (t : ℚ) (W H : ℕ) :
    (animate s t W H).firefliesPositions = s.firefliesPositions ∧
      (animate s t W H).firefliesScales = s.firefliesScales ∧
      (animate s t W H).firefliesUSize = s.firefliesUSize ∧
      (animate s t W H).firefliesUPixelRatio = s.firefliesUPixelRatio := by
  unfold animate render writePortalTime writeFirefliesTime updateControls
    handleResize resizeRendererToDisplaySize
  split <;> simp

/-- On a dimension change, `handleResize` resizes the renderer, sets the
camera aspect to `W / H` and recomputes the projection. -/
lemma handleResize_of_changed (s : SceneState) (W H : ℕ)
    (h : s.rendererW ≠ W ∨ s.rendererH ≠ H) :
    handleResize s W H =
      { s with
        rendererW := W
        rendererH := H
        cameraAspect := (W : ℚ) / (H : ℚ)
        projectionRecomputes := s.projectionRecomputes + 1 } := by
  unfold handleResize resizeRendererToDisplaySize
  rw [if_pos h]
  rfl

/-- With unchanged dimensions, `handleResize` is the identity. -/
lemma handleResize_of_unchanged (s : SceneState) (W H : ℕ)
    (h : ¬(s.rendererW ≠ W ∨ s.rendererH ≠ H)) :
    handleResize s W H = s := by
  unfold handleResize resizeRendererToDisplaySize
  rw [if_neg h]
  rfl

/-- C7: on a tick whose surface pixel dimensions differ from the
renderer's stored ones, the camera aspect is set to exactly `W / H` and the
projection is recomputed before that tick's draw (the draw snapshot already
carries the new aspect); on a tick with unchanged dimensions the aspect and
the projection-recompute count are left untouched. -/
theorem animate_resize_camera (s : SceneState) (t : ℚ) (W H : ℕ) :
    (¬(W = s.rendererW ∧ H = s.rendererH) →
        (animate s t W H).cameraAspect = (W : ℚ) / (H : ℚ) ∧
          (animate s t W H).projectionRecomputes = s.projectionRecomputes + 1 ∧
          ∃ d : DrawCall,
            (animate s t W H).drawCalls = s.drawCalls ++ [d] ∧
              d.cameraAspect = (W : ℚ) / (H : ℚ)) ∧
      ((W = s.rendererW ∧ H = s.rendererH) →
        (animate s t W H).cameraAspect = s.cameraAspect ∧
          (animate s t W H).projectionRecomputes = s.projectionRecomputes) := by
  constructor
  · intro h
    have hcond : s.rendererW ≠ W ∨ s.rendererH ≠ H := by
      by_cases h1 : W = s.rendererW
      · right
        exact fun hh => h ⟨h1, hh.symm⟩
      · left
        exact fun hh => h1 hh.symm
    unfold animate
    rw [handleResize_of_changed s W H hcond]
    simp [render, writePortalTime, writeFirefliesTime, updateControls]
  · intro h
    have hcond : ¬(s.rendererW ≠ W ∨ s.rendererH ≠ H) := by
      push_neg
      exact ⟨h.1.symm, h.2.symm⟩
    unfold animate
    rw [handleResize_of_unchanged s W H hcond]
    simp [render, writePortalTime, writeFirefliesTime, updateControls]

/-- A concrete pre-tick state used to instantiate the resize theorem. -/
def sampleState : SceneState :=
  ⟨[(0, 0, 0)], [1/2], 0, 0, 80, 1, 100, 50, 2, 0, 0, []⟩

/-- Witness for C7: a tick at surface size 200x100 on a state whose
renderer holds 100x50 recomputes the aspect to 2, and a tick at the
unchanged size 100x50 leaves aspect and projection untouched. -/
theorem animate_resize_camera_witness :
    ((animate sampleState 1 200 100).cameraAspect = (200 : ℚ) / (100 : ℚ) ∧
        (animate sampleState 1 200 100).projectionRecomputes =
          sampleState.projectionRecomputes + 1 ∧
        ∃ d : DrawCall,
          (animate sampleState 1 200 100).drawCalls = sampleState.drawCalls ++ [d] ∧
            d.cameraAspect = (200 : ℚ) / (100 : ℚ)) ∧
      ((animate sampleState 1 100 50).cameraAspect = sampleState.cameraAspect ∧
        (animate sampleState 1 100 50).projectionRecomputes =
          sampleState.projectionRecomputes) :=
  ⟨(animate_resize_camera sampleState 1 200 100).1 (by decide),
    (animate_resize_camera sampleState 1 100 50).2 (by decide)⟩

/-! ## Firefly point-set generation (src/scene.ts, lines 127-142)

The loop consumes `Math.random()` results in a fixed order: for each index
`i` it draws x, y, z, then the scale, i.e. stream positions `4*i`,
`4*i + 1`, `4*i + 2`, `4*i + 3`.  The stream is an explicit parameter
`r : ℕ → ℚ`; `Math.random()` guarantees every drawn value lies in
`[0, 1)`. -/

/-- scene.ts line 127: `const firefliesCount = 50`. -/
def firefliesCount : ℕ := 50

/-- scene.ts lines 134-136: position `i` is
`((random - 0.5) * 4, random * 1.5, (random - 0.5) * 4)`. -/
def firefliesPositionsGen (r : ℕ → ℚ) (i : Fin firefliesCount) : ℚ × ℚ × ℚ :=
  ((r (4 * i.val) - 0.5) * 4, r (4 * i.val + 1) * 1.5, (r (4 * i.val + 2) - 0.5) * 4)

/-- scene.ts line 138: `scaleArray[i] = Math.random()`. -/
def firefliesScalesGen (r : ℕ → ℚ) (i : Fin firefliesCount) : ℚ :=
  r (4 * i.val + 3)

/-- C5: the firefly point set is generated once at startup as a fixed-size
array of 50 positions, every generated position lies in the box
`x ∈ [-2, 2]`, `y ∈ [0, 1.5]`, `z ∈ [-2, 2]`, and every per-point scale
lies in `[0, 1)`, provided every `Math.random()` result lies in `[0, 1)`. -/
theorem fireflies_generation_bounds (r : ℕ → ℚ)
    (h : ∀ n, 0 ≤ r n ∧ r n < 1) :
    (List.ofFn (firefliesPositionsGen r)).length = firefliesCount ∧
      ∀ i : Fin firefliesCount,
        (-2 ≤ (firefliesPositionsGen r i).1 ∧ (firefliesPositionsGen r i).1 ≤ 2) ∧
          (0 ≤ (firefliesPositionsGen r i).2.1 ∧ (firefliesPositionsGen r i).2.1 ≤ 1.5) ∧
          (-2 ≤ (firefliesPositionsGen r i).2.2 ∧ (firefliesPositionsGen r i).2.2 ≤ 2) ∧
          (0 ≤ firefliesScalesGen r i ∧ firefliesScalesGen r i < 1) := by
  refine ⟨by simp [firefliesCount], ?_⟩
  intro i
  obtain ⟨hx0, hx1⟩ := h (4 * i.val)
  obtain ⟨hy0, hy1⟩ := h (4 * i.val + 1)
  obtain ⟨hz0, hz1⟩ := h (4 * i.val + 2)
  obtain ⟨hs0, hs1⟩ := h (4 * i.val + 3)
  unfold firefliesPositionsGen firefliesScalesGen
  exact ⟨⟨by linarith, by linarith⟩, ⟨by linarith, by linarith⟩,
    ⟨by linarith, by linarith⟩, hs0, hs1⟩

/-- Witness for C5 with the constant random stream `1/2`. -/
theorem fireflies_generation_bounds_witness :
    (List.ofFn (firefliesPositionsGen (fun _ => (1 : ℚ) / 2))).length = firefliesCount ∧
      ∀ i : Fin firefliesCount,
        (-2 ≤ (firefliesPositionsGen (fun _ => (1 : ℚ) / 2) i).1 ∧
            (firefliesPositionsGen (fun _ => (1 : ℚ) / 2) i).1 ≤ 2) ∧
          (0 ≤ (firefliesPositionsGen (fun _ => (1 : ℚ) / 2) i).2.1 ∧
            (firefliesPositionsGen (fun _ => (1 : ℚ) / 2) i).2.1 ≤ 1.5) ∧
          (-2 ≤ (firefliesPositionsGen (fun _ => (1 : ℚ) / 2) i).2.2 ∧
            (firefliesPositionsGen (fun _ => (1 : ℚ) / 2) i).2.2 ≤ 2) ∧
          (0 ≤ firefliesScalesGen (fun _ => (1 : ℚ) / 2) i ∧
            firefliesScalesGen (fun _ => (1 : ℚ) / 2) i < 1) :=
  fireflies_generation_bounds (fun _ => (1 : ℚ) / 2)
    (fun _ => by norm_num)

/-! ## Pixel-ratio cap (src/scene.ts, lines 64 and 157-159) -/

/-- `Math.min(window.devicePixelRatio, 2)`, the expression used both at
startup (line 64) and in the resize listener (line 158). -/
def cappedPixelRatio (dpr : ℚ) : ℚ := min dpr 2

/-- scene.ts line 64: `renderer.setPixelRatio(Math.min(window.devicePixelRatio, 2))`. -/
def rendererPixelRatioAtStartup (dpr : ℚ) : ℚ := cappedPixelRatio dpr

/-- scene.ts line 147: the `uPixelRatio` uniform starts at
`renderer.getPixelRatio()`, i.e. the value set at startup. -/
def initialUPixelRatio (dpr : ℚ) : ℚ := rendererPixelRatioAtStartup dpr

/-- scene.ts lines 157-159: each window-resize event overwrites
`uPixelRatio` with `Math.min(window.devicePixelRatio, 2)`; the value after
a sequence of resize events whose device pixel ratios are `events`. -/
def uPixelRatioAfterResizes (dpr0 : ℚ) (events : List ℚ) : ℚ :=
  events.foldl (fun _ d => cappedPixelRatio d) (initialUPixelRatio dpr0)

/-- Folding capped writes keeps the uniform at most 2. -/
lemma foldl_capped_le_two (l : List ℚ) (a : ℚ) (ha : a ≤ 2) :
    l.foldl (fun _ d => cappedPixelRatio d) a ≤ 2 := by
  induction l generalizing a with
  | nil => simpa
  | cons x xs ih => exact ih _ (min_le_right x 2)

/-- C8: the renderer pixel ratio set at startup and every `uPixelRatio`
value written by the resize handler equal `min(devicePixelRatio, 2)`, so
after any sequence of resize events the pixel-ratio value in use never
exceeds 2. -/
theorem pixel_ratio_capped (dpr0 : ℚ) (events : List ℚ) :
    rendererPixelRatioAtStartup dpr0 = min dpr0 2 ∧
      (∀ d : ℚ, cappedPixelRatio d = min d 2) ∧
      uPixelRatioAfterResizes dpr0 events ≤ 2 := by
  refine ⟨rfl, fun d => rfl, ?_⟩
  exact foldl_capped_le_two events _ (min_le_right dpr0 2)

/-! ## Scene-assembly lookups (src/scene.ts, `init`)

Each `scene.getObjectByName(name) as Mesh` is an unchecked cast: when the
name is absent the lookup yields `undefined` and the property write that
follows throws, so `init` fails.  The lookups in source order: `Scene`
(lines 99-100), `baked` (116-117), `lampLightA` / `lampLightB` (119-123),
`portalLight` (178-179).  The firefly `Points` object is created by the
code and assigned the name `Fireflies` (lines 161-162); it is never looked
up in the loaded scene. -/

/-- The sub-object lookups of `init`, over the set of object names present
in the loaded glTF scene: the first absent looked-up name (in source
order) makes startup throw. -/
def initAssembly (sceneNames : List String) : Except String Unit :=
  if "Scene" ∉ sceneNames then .error "Scene"
  else if "baked" ∉ sceneNames then .error "baked"
  else if "lampLightA" ∉ sceneNames then .error "lampLightA"
  else if "lampLightB" ∉ sceneNames then .error "lampLightB"
  else if "portalLight" ∉ sceneNames then .error "portalLight"
  else .ok ()

/-- C9 counterexample: a loaded scene containing `Scene`, `baked`,
`lampLightA`, `lampLightB` and `portalLight` but no object named
`Fireflies` still completes startup normally — the firefly points object
is created by the code and merely named `Fireflies`, never looked up, so
the claim that absence of any of the five listed names (in particular
`Fireflies`) makes startup fail is false. -/
theorem initAssembly_no_fireflies_ok :
    initAssembly ["Scene", "baked", "lampLightA", "lampLightB", "portalLight"] =
        Except.ok () ∧
      "Fireflies" ∉ ["Scene", "baked", "lampLightA", "lampLightB", "portalLight"] := by
  constructor
  · rfl
  · decide

/-- C9 (amended): the named sub-objects `baked`, `lampLightA`,
`lampLightB` and `portalLight` are looked up in the loaded scene by string
identifier and, if any of them is absent, startup fails (`Fireflies` is
not looked up: that name is assigned to the firefly object the code itself
creates). -/
theorem initAssembly_required_names (sceneNames : List String) (n : String)
    (hn : n ∈ ["baked", "lampLightA", "lampLightB", "portalLight"])
    (habs : n ∉ sceneNames) :
    ∃ e, initAssembly sceneNames = Except.error e := by
  simp only [List.mem_cons, List.not_mem_nil, or_false] at hn
  rcases hn with rfl | rfl | rfl | rfl <;>
    · unfold initAssembly
      split_ifs <;> exact ⟨_, rfl⟩

/-- Witness for C9 (amended) at `n = "baked"` and the empty scene. -/
theorem initAssembly_required_names_witness :
    "baked" ∈ ["baked", "lampLightA", "lampLightB", "portalLight"] ∧
      "baked" ∉ ([] : List String) ∧
      ∃ e, initAssembly [] = Except.error e :=
  ⟨by decide, by decide,
    initAssembly_required_names [] "baked" (by decide) (by decide)⟩

/-! ## Debug-panel state persistence (src/scene.ts, lines 244-252)

`init` ends with
  const guiState = localStorage.getItem('guiState')
  if (guiState) gui.load(JSON.parse(guiState))
`JSON.parse` throws on a malformed string; since `init` is async and
`animate` only starts from `init().then(...)`, a throw here means startup
does not complete normally. -/

/-- The debug-panel settings exposed by the GUI (scene.ts lines 218-241):
firefly point size, the two portal gradient colors, axes-helper
visibility, and camera auto-rotate. -/
structure GuiState where
  size : ℚ
  colorStart : ℚ × ℚ × ℚ
  colorEnd : ℚ × ℚ × ℚ
  axesVisible : Bool
  autoRotate : Bool
  deriving Repr, DecidableEq

/-- scene.ts lines 251-252.  `stored` is the `localStorage.getItem` result
(`none` when the key is absent); `parse` models `JSON.parse`, returning
`none` for a string it throws on.  A stored empty string is JavaScript
falsy, so the `if (guiState)` guard skips it.  Result: `.ok none` when the
panel keeps its defaults, `.ok (some g)` when state `g` is loaded into the
panel, `.error s` when `JSON.parse` threw on `s` (the exception escapes
`init`). -/
def loadGuiState (stored : Option String) (parse : String → Option GuiState) :
    Except String (Option GuiState) :=
  match stored with
  | none => .ok none
  | some s =>
    if s = "" then .ok none
    else
      match parse s with
      | some g => .ok (some g)
      | none => .error s

/-- C10 counterexample: a present stored string on which `JSON.parse`
throws (modelled by a parse function rejecting it) makes the GUI-state
load raise instead of falling back to defaults, so startup does not
complete normally in every case. -/
theorem loadGuiState_malformed_not_ok :
    (loadGuiState (some "oops") (fun _ => none)).isOk = false := by
  rfl

/-- C10 (amended): absent persisted state is ignored and the panel keeps
its defaults with startup completing normally, and parseable stored state
is loaded into the panel; but when the stored string is malformed,
`JSON.parse` throws and startup does not complete normally. -/
theorem loadGuiState_spec (parse : String → Option GuiState) :
    loadGuiState none parse = Except.ok none ∧
      (∀ s g, s ≠ "" → parse s = some g →
        loadGuiState (some s) parse = Except.ok (some g)) ∧
      (∀ s, s ≠ "" → parse s = none →
        loadGuiState (some s) parse = Except.error s) := by
  refine ⟨rfl, ?_, ?_⟩
  · intro s g hs hp
    simp only [loadGuiState]
    rw [if_neg hs, hp]
  · intro s hs hp
    simp only [loadGuiState]
    rw [if_neg hs, hp]

/-- Witness for C10 (amended) at concrete stored strings and parse
outcomes. -/
theorem loadGuiState_spec_witness :
    loadGuiState none (fun _ => none) = Except.ok none ∧
      loadGuiState (some "s")
          (fun _ => some ⟨80, (1, 1, 1), (0, 0, 0), false, false⟩) =
        Except.ok (some ⟨80, (1, 1, 1), (0, 0, 0), false, false⟩) ∧
      loadGuiState (some "s") (fun _ => none) = Except.error "s" :=
  ⟨(loadGuiState_spec (fun _ => none)).1,
    (loadGuiState_spec (fun _ => some ⟨80, (1, 1, 1), (0, 0, 0), false, false⟩)).2.1
      "s" _ (by decide) rfl,
    (loadGuiState_spec (fun _ => none)).2.2 "s" (by decide) rfl⟩

end Portal
